import Mathlib

/-!
# Verification of the AS7331 UVA/UVB/UVC sensor driver

A shallow embedding of `src/Software/Driver/src/as7331.ts` (the AS7331
spectral UV sensor driver of the Freya-sensor repository) and proofs of
the specification claims about it.

Modelling conventions:
* JavaScript `number` values are modelled as rationals (`ℚ`); the raw
  register values and register addresses are natural numbers.
* Every I²C bus operation and every delay performed by the driver is
  recorded in an explicit trace (`BusOp` list), in the order the source
  performs them.
* Bus responses are supplied by environments: `InitEnv` gives the byte
  returned when `init` reads the AGEN (device id) register; `ReadEnv`
  gives the sequence of STATUS bytes seen by the polling loop and the
  8-byte block returned by the block read.
* Wall-clock time inside the polling loop advances exactly by the 5 ms
  delay of each iteration (the bus read itself takes no modelled time),
  so the 500 ms budget admits 100 polls.
-/

/-- Register addresses and bit constants of the driver (verbatim from the
source's `static readonly` fields). -/
def REG_OSR : ℕ := 0x00

def REG_AGEN : ℕ := 0x01

def REG_CREG1 : ℕ := 0x02

def REG_CREG3 : ℕ := 0x04

def REG_STATUS : ℕ := 0x01

def REG_TEMP : ℕ := 0x02

def OSR_DOS_CONFIG : ℕ := 0x04

def OSR_DOS_MEAS : ℕ := 0x06

def OSR_SS : ℕ := 0x08

def STATUS_NDATA : ℕ := 0x04

/-- Channel sensitivity constant `SENS_A = 304.0e-3` (UVA). -/
def SENS_A : ℚ := 304 / 1000

/-- Channel sensitivity constant `SENS_B = 398.0e-3` (UVB). -/
def SENS_B : ℚ := 398 / 1000

/-- Channel sensitivity constant `SENS_C = 855.0e-3` (UVC). -/
def SENS_C : ℚ := 855 / 1000

/-- One observable action of the driver: an I²C byte write, an I²C byte
read (recording the byte the bus returned), an I²C block read (recording
the bytes returned), or an asynchronous delay of `ms` milliseconds. -/
inductive BusOp where
  | writeByte (addr reg value : ℕ)
  | readByte (addr reg value : ℕ)
  | readBlock (addr reg len : ℕ) (data : List ℕ)
  | delay (ms : ℚ)
  deriving DecidableEq, Repr

/-- The driver instance fields of class `AS7331`: I²C address, bus number
(the handle opened by `init`), and the gain/integration-time parameters
stored by `init`. -/
structure AS7331 where
  address : ℕ
  busNumber : ℕ
  gainCode : ℕ
  timeCode : ℕ
  gainFactor : ℚ
  integrationTimeMs : ℚ
  deriving DecidableEq, Repr

/-- Bus responses consumed by `init`: the byte returned when reading the
AGEN (device identity) register. -/
structure InitEnv where
  agen : Fin 256
  deriving DecidableEq

/-- Bus responses consumed by `read`: `status i` is the byte returned by
the `i`-th STATUS poll, and `block` is the 8-byte buffer filled by the
block read at `REG_TEMP`. -/
structure ReadEnv where
  status : ℕ → Fin 256
  block : Fin 8 → Fin 256

/-- Result of `init`: the driver state after the method (`this`), the
trace of bus operations performed, and whether the device-identity
mismatch warning (`console.warn`) was emitted. -/
structure InitResult where
  state : AS7331
  trace : List BusOp
  idWarning : Bool
  deriving DecidableEq

/-- The value returned by `read()`: irradiances in µW/cm² and the die
temperature in °C. -/
structure Sample where
  uva : ℚ
  uvb : ℚ
  uvc : ℚ
  temperature : ℚ
  deriving DecidableEq, Repr

/-- Result of `read`: the returned sample, the trace of bus operations,
whether the NDATA-timeout warning was emitted, and the driver state after
the method. -/
structure ReadResult where
  sample : Sample
  trace : List BusOp
  ndataTimeout : Bool
  state : AS7331
  deriving DecidableEq

/-- `waitForData` (source lines 211–219): poll the STATUS register until
the NDATA bit is set or `timeoutMs` of wall-clock time has elapsed.
`t` is the elapsed time (`Date.now() - start`), `i` counts polls so the
environment can answer each poll; each iteration reads STATUS and, when
NDATA is clear, delays 5 ms. Returns the trace of the loop and `true`
iff the loop timed out (the `console.warn` path). -/
def waitForData (addr : ℕ) (status : ℕ → Fin 256) (timeoutMs t i : ℕ) :
    List BusOp × Bool :=
  if h : t < timeoutMs then
    let st := (status i).val
    if st &&& STATUS_NDATA ≠ 0 then
      ([.readByte addr REG_STATUS st], false)
    else
      let rest := waitForData addr status timeoutMs (t + 5) (i + 1)
      (.readByte addr REG_STATUS st :: .delay 5 :: rest.1, rest.2)
  else
    ([], true)
termination_by timeoutMs - t
decreasing_by omega

/-- `init(gainCode, timeCode)` (source lines 90–126): open the bus, mask
and store the codes, derive `gainFactor`/`integrationTimeMs`, enter
Configuration state, settle 10 ms, read and check the device id, write
CREG1 (gain/time nibbles) and CREG3 (CMD mode, 1.024 MHz clock). -/
def AS7331.init (address gainCode timeCode : ℕ) (env : InitEnv) :
    InitResult :=
  let gc := gainCode &&& 0x0F
  let tc := timeCode &&& 0x0F
  let s : AS7331 :=
    { address := address
      busNumber := 1
      gainCode := gc
      timeCode := tc
      gainFactor := 2 ^ gc
      integrationTimeMs := 2 ^ tc }
  let agen := env.agen.val
  let deviceId := (agen >>> 4) &&& 0x0F
  let creg1 := (gc <<< 4) ||| tc
  { state := s
    trace :=
      [.writeByte address REG_OSR OSR_DOS_CONFIG,
       .delay 10,
       .readByte address REG_AGEN agen,
       .writeByte address REG_CREG1 creg1,
       .writeByte address REG_CREG3 0x00]
    idWarning := deviceId != 0x02 }

/-- The driver state produced by `init`. -/
def initState (address gainCode timeCode : ℕ) (env : InitEnv) : AS7331 :=
  (AS7331.init address gainCode timeCode env).state

/-- `rawToIrradiance` (source lines 181–184):
`E = raw / (sensitivity × gainFactor × integrationTimeMs)`, with the
guard returning exactly 0 when `raw = 0` or `sensitivity = 0`. -/
def AS7331.rawToIrradiance (s : AS7331) (raw sensitivity : ℚ) : ℚ :=
  if raw = 0 ∨ sensitivity = 0 then 0
  else raw / (sensitivity * s.gainFactor * s.integrationTimeMs)

/-- `rawToTemperature` (source lines 194–196): `T = raw/256 − 40`. -/
def rawToTemperature (raw : ℚ) : ℚ :=
  raw / 256 - 40

/-- The contents of the 8-byte buffer filled by the block read, as the
list of byte values. -/
def blockBytes (env : ReadEnv) : List ℕ :=
  List.ofFn fun i : Fin 8 => (env.block i).val

/-- `Buffer.readUInt16LE(off)` on the 8-byte block: little-endian
unsigned 16-bit value at byte offset `off`. -/
def readUInt16LE (env : ReadEnv) (off : Fin 8) (off1 : Fin 8) : ℕ :=
  (env.block off).val + 256 * (env.block off1).val

/-- `read()` (source lines 134–169): write OSR = Measurement | SS (start
one-shot), delay `integrationTimeMs + 20` ms, poll STATUS (budget
500 ms), block-read 8 bytes at `REG_TEMP`, decode four little-endian
16-bit values, return to Configuration state, convert and return. -/
def AS7331.read (s : AS7331) (env : ReadEnv) : ReadResult :=
  let poll := waitForData s.address env.status 500 0 0
  let tempRaw := readUInt16LE env 0 1
  let uvaRaw := readUInt16LE env 2 3
  let uvbRaw := readUInt16LE env 4 5
  let uvcRaw := readUInt16LE env 6 7
  { sample :=
      { uva := s.rawToIrradiance uvaRaw SENS_A
        uvb := s.rawToIrradiance uvbRaw SENS_B
        uvc := s.rawToIrradiance uvcRaw SENS_C
        temperature := rawToTemperature tempRaw }
    trace :=
      .writeByte s.address REG_OSR (OSR_DOS_MEAS ||| OSR_SS)
        :: .delay (s.integrationTimeMs + 20)
        :: poll.1
        ++ [.readBlock s.address REG_TEMP 8 (blockBytes env),
            .writeByte s.address REG_OSR OSR_DOS_CONFIG]
    ndataTimeout := poll.2
    state := s }

/-! ## Helper lemmas -/

/-- Masking with `0x0F` is reduction mod 16. -/
theorem land_fifteen (n : ℕ) : n &&& 15 = n % 16 := by
  have h : (15 : ℕ) = 2 ^ 4 - 1 := rfl
  rw [h, Nat.and_pow_two_sub_one_eq_mod]

/-- The exact bus-operation trace of `init`, with all register addresses
and values spelled out. -/
theorem init_trace_eq (addr g t : ℕ) (env : InitEnv) :
    (AS7331.init addr g t env).trace
      = [BusOp.writeByte addr 0x00 0x04,
         BusOp.delay 10,
         BusOp.readByte addr 0x01 env.agen.val,
         BusOp.writeByte addr 0x02 (((g % 16) <<< 4) ||| (t % 16)),
         BusOp.writeByte addr 0x04 0x00] := by
  simp [AS7331.init, REG_OSR, REG_AGEN, REG_CREG1, REG_CREG3,
    OSR_DOS_CONFIG, land_fifteen]

/-- If NDATA is clear on every poll, `waitForData` times out. -/
theorem waitForData_never (addr : ℕ) (status : ℕ → Fin 256) (timeoutMs : ℕ)
    (h : ∀ j, (status j).val &&& STATUS_NDATA = 0) :
    ∀ k t i, timeoutMs - t ≤ k →
      (waitForData addr status timeoutMs t i).2 = true := by
  intro k
  induction k with
  | zero =>
    intro t i hk
    unfold waitForData
    have ht : ¬ t < timeoutMs := by omega
    simp [ht]
  | succ n ih =>
    intro t i hk
    unfold waitForData
    by_cases ht : t < timeoutMs
    · simp only [ht, dif_pos, h i, ne_eq, not_true_eq_false, if_false,
        not_false_eq_true, if_true]
      exact ih (t + 5) (i + 1) (by omega)
    · simp [ht]

/-- Irradiance conversion yields a non-negative value whenever the stored
gain factor and integration time are positive and the sensitivity is
non-negative. -/
theorem rawToIrradiance_nonneg (s : AS7331) (raw : ℕ) (sens : ℚ)
    (hg : 0 < s.gainFactor) (hi : 0 < s.integrationTimeMs) (hs : 0 ≤ sens) :
    0 ≤ s.rawToIrradiance raw sens := by
  unfold AS7331.rawToIrradiance
  split
  · exact le_refl 0
  · apply div_nonneg (Nat.cast_nonneg raw)
    positivity

/-! ## Claim theorems -/

/-- C6 counterexample: the claimed test vector `rawToTemperature 256 = 0`
is false: the code computes `256/256 − 40 = −39`. -/
theorem C6_rawToTemperature_counterexample :
    rawToTemperature 256 = -39 ∧ rawToTemperature 256 ≠ 0 := by
  constructor <;> norm_num [rawToTemperature]

/-- C6 (amended): for every raw value,
`rawToTemperature raw = raw/256 − 40`; in particular
`rawToTemperature 0 = −40` and `rawToTemperature 256 = −39` (the raw
value mapping to 0 °C is 10240, not 256). -/
theorem C6_rawToTemperature_formula (raw : ℚ) :
    rawToTemperature raw = raw / 256 - 40
    ∧ rawToTemperature 0 = -40
    ∧ rawToTemperature 256 = -39
    ∧ rawToTemperature 10240 = 0 := by
  refine ⟨rfl, ?_, ?_, ?_⟩ <;> norm_num [rawToTemperature]

/-- C3: after `init(gainCode, timeCode)`, the stored codes equal the
inputs masked to 4 bits, `gainFactor = 2^(masked gainCode)` and
`integrationTimeMs = 2^(masked timeCode)`; for `gainCode ≤ 11` the gain
factor is `2^gainCode` and for `timeCode ≤ 14` the integration time is
`2^timeCode`; `init` completes (is total) for every input pair. -/
theorem C3_init_parameters (addr g t : ℕ) (env : InitEnv) :
    (initState addr g t env).gainCode = g % 16
    ∧ (initState addr g t env).timeCode = t % 16
    ∧ (initState addr g t env).gainFactor = 2 ^ (g % 16)
    ∧ (initState addr g t env).integrationTimeMs = 2 ^ (t % 16)
    ∧ (g ≤ 11 → (initState addr g t env).gainFactor = 2 ^ g)
    ∧ (t ≤ 14 → (initState addr g t env).integrationTimeMs = 2 ^ t) := by
  refine ⟨?_, ?_, ?_, ?_, ?_, ?_⟩ <;>
    simp [initState, AS7331.init, land_fifteen] <;>
    omega

/-- C3 witness: at `gainCode = timeCode = 7` the stored gain factor is
`2^7 = 128` and the integration time is `2^7 = 128` ms. -/
theorem C3_init_parameters_witness :
    (initState 0x74 7 7 ⟨0x21⟩).gainFactor = 2 ^ 7
    ∧ (initState 0x74 7 7 ⟨0x21⟩).integrationTimeMs = 2 ^ 7 :=
  ⟨(C3_init_parameters 0x74 7 7 ⟨0x21⟩).2.2.2.2.1 (by decide),
   (C3_init_parameters 0x74 7 7 ⟨0x21⟩).2.2.2.2.2 (by decide)⟩

/-- C4: `init` performs exactly this register-access sequence: write OSR
with the Configuration selector (trigger bit clear), delay 10 ms, read
the device-identity register, write CREG1 with gainCode in the upper
nibble and timeCode in the lower nibble, write CREG3 with 0x00 (one-shot
CMD mode, internal 1.024 MHz clock, all other fields off). -/
theorem C4_init_sequence (addr g t : ℕ) (env : InitEnv) :
    (AS7331.init addr g t env).trace
      = [BusOp.writeByte addr REG_OSR OSR_DOS_CONFIG,
         BusOp.delay 10,
         BusOp.readByte addr REG_AGEN env.agen.val,
         BusOp.writeByte addr REG_CREG1 (((g % 16) <<< 4) ||| (t % 16)),
         BusOp.writeByte addr REG_CREG3 0x00] :=
  init_trace_eq addr g t env

/-- C8: `read()` leaves every driver field unchanged (address, bus
number, gainCode, timeCode, gainFactor, integrationTimeMs), and a second
sequential `read()` on the resulting instance returns, for any bus
responses, exactly what a fresh `read()` on the original instance
returns with those responses; in particular two sequential calls with
the same responses return equal samples. -/
theorem C8_read_frame (s : AS7331) (e1 e2 : ReadEnv) :
    (s.read e1).state = s
    ∧ (s.read e1).state.address = s.address
    ∧ (s.read e1).state.busNumber = s.busNumber
    ∧ (s.read e1).state.gainCode = s.gainCode
    ∧ (s.read e1).state.timeCode = s.timeCode
    ∧ (s.read e1).state.gainFactor = s.gainFactor
    ∧ (s.read e1).state.integrationTimeMs = s.integrationTimeMs
    ∧ (((s.read e1).state).read e2).sample = (s.read e2).sample
    ∧ (((s.read e1).state).read e1).sample = (s.read e1).sample :=
  ⟨rfl, rfl, rfl, rfl, rfl, rfl, rfl, rfl, rfl⟩

/-- C1: for every raw count and sensitivity, `rawToIrradiance` on the
state stored by `init` returns `raw / (sensitivity × gainFactor ×
integrationTimeMs)` and returns exactly 0 when `raw = 0` or
`sensitivity = 0`; for raw = 1000, gainCode = 7 (gainFactor 128),
timeCode = 7 (integrationTimeMs 128), sensitivity 0.304, the result is
`1000 / (0.304 × 128 × 128)`. -/
theorem C1_rawToIrradiance_formula (addr g t : ℕ) (env : InitEnv) :
    (∀ raw sens : ℚ,
      (initState addr g t env).rawToIrradiance raw sens
        = raw / (sens * (initState addr g t env).gainFactor
            * (initState addr g t env).integrationTimeMs))
    ∧ (∀ raw sens : ℚ, raw = 0 ∨ sens = 0 →
        (initState addr g t env).rawToIrradiance raw sens = 0)
    ∧ (initState addr 7 7 env).rawToIrradiance 1000 (304 / 1000)
        = 1000 / ((304 / 1000) * 128 * 128) := by
  refine ⟨?_, ?_, ?_⟩
  · intro raw sens
    by_cases hr : raw = 0
    · subst hr; simp [AS7331.rawToIrradiance]
    · by_cases hs : sens = 0
      · subst hs; simp [AS7331.rawToIrradiance]
      · simp [AS7331.rawToIrradiance, hr, hs]
  · intro raw sens h
    rw [AS7331.rawToIrradiance, if_pos h]
  · have h128 : (initState addr 7 7 env).gainFactor = 128 := by
      norm_num [initState, AS7331.init, land_fifteen]
    have h128i : (initState addr 7 7 env).integrationTimeMs = 128 := by
      norm_num [initState, AS7331.init, land_fifteen]
    rw [AS7331.rawToIrradiance, if_neg (by norm_num), h128, h128i]

/-- C1 witness: the zero guard at a concrete input. -/
theorem C1_rawToIrradiance_witness :
    (initState 0x74 7 7 ⟨0x21⟩).rawToIrradiance 0 (304 / 1000) = 0 :=
  (C1_rawToIrradiance_formula 0x74 7 7 ⟨0x21⟩).2.1 0 (304 / 1000)
    (Or.inl rfl)

/-- C2: every `read()` performs, in order: one OSR write of Measurement
selector with the start/stop bit (0x06 ∨ 0x08 = 0x0E, a single write), a
delay of `integrationTimeMs + 20` ms, the status poll, one 8-byte block
read at the temperature register, then one OSR write of the
Configuration selector; the sample is decoded from the block as four
little-endian 16-bit values at offsets 0 (temperature), 2 (A), 4 (B),
6 (C) and converted. -/
theorem C2_read_sequence (s : AS7331) (env : ReadEnv) :
    (s.read env).trace
      = [BusOp.writeByte s.address 0x00 0x0E,
         BusOp.delay (s.integrationTimeMs + 20)]
        ++ (waitForData s.address env.status 500 0 0).1
        ++ [BusOp.readBlock s.address 0x02 8 (blockBytes env),
            BusOp.writeByte s.address 0x00 0x04]
    ∧ (s.read env).sample.temperature
        = rawToTemperature
            (((env.block 0).val + 256 * (env.block 1).val : ℕ) : ℚ)
    ∧ (s.read env).sample.uva
        = s.rawToIrradiance
            (((env.block 2).val + 256 * (env.block 3).val : ℕ) : ℚ) SENS_A
    ∧ (s.read env).sample.uvb
        = s.rawToIrradiance
            (((env.block 4).val + 256 * (env.block 5).val : ℕ) : ℚ) SENS_B
    ∧ (s.read env).sample.uvc
        = s.rawToIrradiance
            (((env.block 6).val + 256 * (env.block 7).val : ℕ) : ℚ) SENS_C := by
  refine ⟨?_, rfl, rfl, rfl, rfl⟩
  simp [AS7331.read, REG_OSR, REG_TEMP, OSR_DOS_MEAS, OSR_SS,
    OSR_DOS_CONFIG]

/-- C5: when the NDATA bit is clear on every status poll, `read()` still
succeeds: the timeout warning is recorded, the 8-byte block read is still
performed, and a fully decoded and converted sample is returned. -/
theorem C5_timeout_still_reads (s : AS7331) (env : ReadEnv)
    (h : ∀ i, (env.status i).val &&& STATUS_NDATA = 0) :
    (s.read env).ndataTimeout = true
    ∧ BusOp.readBlock s.address REG_TEMP 8 (blockBytes env)
        ∈ (s.read env).trace
    ∧ (s.read env).sample
        = { uva := s.rawToIrradiance (readUInt16LE env 2 3) SENS_A
            uvb := s.rawToIrradiance (readUInt16LE env 4 5) SENS_B
            uvc := s.rawToIrradiance (readUInt16LE env 6 7) SENS_C
            temperature := rawToTemperature (readUInt16LE env 0 1) } := by
  refine ⟨?_, ?_, rfl⟩
  · exact waitForData_never s.address env.status 500 h 500 0 0 (by omega)
  · simp [AS7331.read]

/-- Concrete state used by closed witness theorems: the result of
initialising at address 0x74 with gain and time codes 7 and AGEN byte
0x21. -/
def sInit : AS7331 := initState 0x74 7 7 ⟨0x21⟩

/-- Concrete read environment whose status byte is always 0 (NDATA never
set) and whose result block is all zeros. -/
def envZero : ReadEnv :=
  { status := fun _ => 0
    block := fun _ => 0 }

/-- C5 witness: with an all-zero bus environment the timeout fires and a
decoded sample is still produced. -/
theorem C5_timeout_still_reads_witness :
    (sInit.read envZero).ndataTimeout = true
    ∧ BusOp.readBlock sInit.address REG_TEMP 8 (blockBytes envZero)
        ∈ (sInit.read envZero).trace
    ∧ (sInit.read envZero).sample
        = { uva := sInit.rawToIrradiance (readUInt16LE envZero 2 3) SENS_A
            uvb := sInit.rawToIrradiance (readUInt16LE envZero 4 5) SENS_B
            uvc := sInit.rawToIrradiance (readUInt16LE envZero 6 7) SENS_C
            temperature := rawToTemperature (readUInt16LE envZero 0 1) } :=
  C5_timeout_still_reads sInit envZero fun i => by
    simp [envZero, STATUS_NDATA]

/-- C7: when the upper nibble of the AGEN byte differs from 0x2, `init`
still completes: the warning flag is set, the full register-access
sequence (including the CREG1 gain/time write and the CREG3 mode write)
is performed exactly as in the matching-identity case, and the resulting
driver state is identical to the one produced with any other AGEN
response. -/
theorem C7_id_mismatch_nonfatal (addr g t : ℕ) (env : InitEnv)
    (h : (env.agen.val >>> 4) &&& 0x0F ≠ 0x02) :
    (AS7331.init addr g t env).idWarning = true
    ∧ (AS7331.init addr g t env).trace
        = [BusOp.writeByte addr REG_OSR OSR_DOS_CONFIG,
           BusOp.delay 10,
           BusOp.readByte addr REG_AGEN env.agen.val,
           BusOp.writeByte addr REG_CREG1 (((g % 16) <<< 4) ||| (t % 16)),
           BusOp.writeByte addr REG_CREG3 0x00]
    ∧ ∀ env2 : InitEnv,
        (AS7331.init addr g t env).state = (AS7331.init addr g t env2).state := by
  refine ⟨?_, init_trace_eq addr g t env, fun env2 => rfl⟩
  simp only [AS7331.init, bne_iff_ne, ne_eq]
  exact h

/-- C7 witness: an AGEN byte 0x51 (upper nibble 0x5 ≠ 0x2) sets the
warning and the trace is still the full five-step sequence. -/
theorem C7_id_mismatch_nonfatal_witness :
    (AS7331.init 0x74 7 7 ⟨0x51⟩).idWarning = true
    ∧ (AS7331.init 0x74 7 7 ⟨0x51⟩).trace
        = [BusOp.writeByte 0x74 REG_OSR OSR_DOS_CONFIG,
           BusOp.delay 10,
           BusOp.readByte 0x74 REG_AGEN (0x51 : Fin 256).val,
           BusOp.writeByte 0x74 REG_CREG1 (((7 % 16) <<< 4) ||| (7 % 16)),
           BusOp.writeByte 0x74 REG_CREG3 0x00]
    ∧ ∀ env2 : InitEnv,
        (AS7331.init 0x74 7 7 ⟨0x51⟩).state = (AS7331.init 0x74 7 7 env2).state :=
  C7_id_mismatch_nonfatal 0x74 7 7 ⟨0x51⟩ (by decide)

/-- C9: after `init`, the stored gain factor and integration time are at
least 1, each channel divisor `sensitivity × gainFactor ×
integrationTimeMs` is strictly positive, and the uva/uvb/uvc values of
every `read()` are non-negative. -/
theorem C9_divisor_positive (addr g t : ℕ) (env0 : InitEnv) (env : ReadEnv) :
    1 ≤ (initState addr g t env0).gainFactor
    ∧ 1 ≤ (initState addr g t env0).integrationTimeMs
    ∧ 0 < SENS_A * (initState addr g t env0).gainFactor
        * (initState addr g t env0).integrationTimeMs
    ∧ 0 < SENS_B * (initState addr g t env0).gainFactor
        * (initState addr g t env0).integrationTimeMs
    ∧ 0 < SENS_C * (initState addr g t env0).gainFactor
        * (initState addr g t env0).integrationTimeMs
    ∧ 0 ≤ ((initState addr g t env0).read env).sample.uva
    ∧ 0 ≤ ((initState addr g t env0).read env).sample.uvb
    ∧ 0 ≤ ((initState addr g t env0).read env).sample.uvc := by
  have hg : (initState addr g t env0).gainFactor = 2 ^ (g &&& 15) := rfl
  have hi : (initState addr g t env0).integrationTimeMs = 2 ^ (t &&& 15) := rfl
  have hg1 : (1 : ℚ) ≤ (initState addr g t env0).gainFactor := by
    rw [hg]; exact one_le_pow₀ (by norm_num)
  have hi1 : (1 : ℚ) ≤ (initState addr g t env0).integrationTimeMs := by
    rw [hi]; exact one_le_pow₀ (by norm_num)
  have hgp : (0 : ℚ) < (initState addr g t env0).gainFactor :=
    lt_of_lt_of_le one_pos hg1
  have hip : (0 : ℚ) < (initState addr g t env0).integrationTimeMs :=
    lt_of_lt_of_le one_pos hi1
  refine ⟨hg1, hi1, ?_, ?_, ?_, ?_, ?_, ?_⟩
  · have : (0 : ℚ) < SENS_A := by norm_num [SENS_A]
    positivity
  · have : (0 : ℚ) < SENS_B := by norm_num [SENS_B]
    positivity
  · have : (0 : ℚ) < SENS_C := by norm_num [SENS_C]
    positivity
  · exact rawToIrradiance_nonneg _ _ _ hgp hip (by norm_num [SENS_A])
  · exact rawToIrradiance_nonneg _ _ _ hgp hip (by norm_num [SENS_B])
  · exact rawToIrradiance_nonneg _ _ _ hgp hip (by norm_num [SENS_C])

/-- C10: the temperature of every `read()` lies in
`[−40, 65535/256 − 40]` (the raw value is an unsigned 16-bit
little-endian decode), and `rawToTemperature` is monotone increasing. -/
theorem C10_temperature_range (s : AS7331) (env : ReadEnv) :
    -40 ≤ (s.read env).sample.temperature
    ∧ (s.read env).sample.temperature ≤ 65535 / 256 - 40
    ∧ ∀ r1 r2 : ℚ, r1 ≤ r2 → rawToTemperature r1 ≤ rawToTemperature r2 := by
  have hT : (s.read env).sample.temperature
      = rawToTemperature (readUInt16LE env 0 1) := rfl
  have hraw : (readUInt16LE env 0 1 : ℚ) ≤ 65535 := by
    have h0 := (env.block 0).isLt
    have h1 := (env.block 1).isLt
    have : readUInt16LE env 0 1 ≤ 65535 := by
      unfold readUInt16LE; omega
    exact_mod_cast this
  have hraw0 : (0 : ℚ) ≤ (readUInt16LE env 0 1 : ℚ) := Nat.cast_nonneg _
  refine ⟨?_, ?_, ?_⟩
  · rw [hT]; unfold rawToTemperature; linarith
  · rw [hT]; unfold rawToTemperature; linarith
  · intro r1 r2 h12
    unfold rawToTemperature
    linarith

/-- C10 witness: the bounds and monotonicity at the concrete all-zero
environment. -/
theorem C10_temperature_range_witness :
    -40 ≤ (sInit.read envZero).sample.temperature
    ∧ (sInit.read envZero).sample.temperature ≤ 65535 / 256 - 40
    ∧ ∀ r1 r2 : ℚ, r1 ≤ r2 → rawToTemperature r1 ≤ rawToTemperature r2 :=
  C10_temperature_range sInit envZero
